import Mathlib

/-!
Shallow embedding of the FitFinder outfit scoring and generation engine.

Sources embedded here:
* `src/lib/weatherApi.ts` — temperature thresholds and `getTemperatureCategory`;
* `src/lib/constants.ts` — `typeToSection`, `occasionRules`;
* `src/lib/types.ts` — `clothingWeatherRules` and the weather helper predicates;
* the outfit scoring engine — `colorHarmonyScore`, `weatherScore`, `varietyScore`,
  `occasionScore`, `comfortScore`, `scoreOutfit`, `generateScoredOutfits`.

JavaScript numbers are modelled as rationals (`ℚ`); the scoring arithmetic uses
only small decimal constants and divisions, stated here exactly.  Nullable
values become `Option`; `Math.random()` draws become an explicit oracle
`picks : Nat → Pick`, one entry per loop iteration, so the generator is a
deterministic function of the oracle.
-/

namespace FitFinder

/-- Temperature categories from `weatherApi.ts`. -/
inductive TemperatureCategory where
  | cold | cool | warm | hot
deriving DecidableEq, Repr

/-- Clothing sections from `types.ts` (`ClothingSection`). -/
inductive ClothingSection where
  | Tops | Bottoms | Outerwear | Shoes
deriving DecidableEq, Repr

/-- Occasions from `constants.ts`. -/
inductive Occasion where
  | Casual | Work | Date | Active
deriving DecidableEq, Repr

/-- A clothing item (`ClothingItem` in `types.ts`); only the fields the engine
reads are kept, with the same names. -/
structure ClothingItem where
  id : String
  type : String
  colors : List String
  image_url : String
  is_dirty : Bool
deriving DecidableEq, Repr

/-- A liked color pairing (`ColorCombination` in `types.ts`). -/
structure ColorCombination where
  topColor : String
  bottomColor : String
deriving DecidableEq, Repr

/-- A historical wear record (`OutfitWear` in `types.ts`); item references and
ratings are optional exactly as in the interface. -/
structure OutfitWear where
  top_id : Option String
  bottom_id : Option String
  shoes_id : Option String
  outerwear_id : Option String
  rating : Option ℚ
  comfort_rating : Option ℚ
deriving DecidableEq, Repr

/-- The scoring context (`ScoringContext` in the engine). -/
structure ScoringContext where
  likedCombinations : List ColorCombination
  weather : Option TemperatureCategory
  recentWears : List OutfitWear
  occasion : Option Occasion
  ratedOutfits : List OutfitWear
deriving DecidableEq, Repr

/-- A scored outfit candidate (`OutfitCandidate` in the engine). -/
structure OutfitCandidate where
  top : ClothingItem
  outerwear : Option ClothingItem
  bottom : ClothingItem
  shoes : ClothingItem
  score : ℚ
deriving DecidableEq, Repr

/-- `typeToSection` from `constants.ts`: maps every known clothing type to its
section; unknown types map to `none` (absent key). -/
def typeToSection : String → Option ClothingSection
  | "T-Shirt" => some .Tops
  | "Long Sleeve Shirt" => some .Tops
  | "Polo" => some .Tops
  | "Tank Top" => some .Tops
  | "Button-Up Shirt" => some .Tops
  | "Hoodie" => some .Tops
  | "Jacket" => some .Outerwear
  | "Sweatshirt" => some .Outerwear
  | "Crewneck" => some .Outerwear
  | "Sweater" => some .Outerwear
  | "Jeans" => some .Bottoms
  | "Pants" => some .Bottoms
  | "Shorts" => some .Bottoms
  | "Sweats" => some .Bottoms
  | "Skirt" => some .Bottoms
  | "Leggings" => some .Bottoms
  | "Shoes" => some .Shoes
  | _ => none

/-- Per-occasion allow-lists (`occasionRules` record entries). -/
structure OccasionRule where
  tops : List String
  bottoms : List String
  outerwear : List String
  shoes : List String
deriving DecidableEq, Repr

/-- `occasionRules` from `constants.ts`. -/
def occasionRules : Occasion → OccasionRule
  | .Casual =>
    { tops := ["T-Shirt", "Long Sleeve Shirt", "Polo", "Tank Top", "Hoodie"]
      bottoms := ["Jeans", "Pants", "Shorts", "Sweats", "Leggings"]
      outerwear := ["Jacket", "Sweatshirt", "Crewneck", "Sweater"]
      shoes := ["Shoes"] }
  | .Work =>
    { tops := ["Long Sleeve Shirt", "Polo", "Button-Up Shirt"]
      bottoms := ["Jeans", "Pants", "Skirt"]
      outerwear := ["Sweater", "Crewneck"]
      shoes := ["Shoes"] }
  | .Date =>
    { tops := ["Long Sleeve Shirt", "Polo", "Button-Up Shirt"]
      bottoms := ["Jeans", "Pants", "Skirt"]
      outerwear := ["Jacket", "Sweater"]
      shoes := ["Shoes"] }
  | .Active =>
    { tops := ["T-Shirt", "Tank Top", "Hoodie"]
      bottoms := ["Shorts", "Sweats", "Leggings"]
      outerwear := ["Sweatshirt", "Jacket"]
      shoes := ["Shoes"] }

/-- Weather appropriateness rules per clothing type (`ClothingWeatherRules`). -/
structure ClothingWeatherRules where
  blockedIn : List TemperatureCategory
  suggestedIn : List TemperatureCategory
deriving DecidableEq, Repr

/-- `clothingWeatherRules` from `types.ts`; types absent from the record map to
`none`. -/
def clothingWeatherRules : String → Option ClothingWeatherRules
  | "Tank Top" => some { blockedIn := [.cold, .cool], suggestedIn := [.hot] }
  | "T-Shirt" => some { blockedIn := [.cold], suggestedIn := [.warm, .hot] }
  | "Long Sleeve Shirt" => some { blockedIn := [], suggestedIn := [.cool, .warm] }
  | "Polo" => some { blockedIn := [.cold], suggestedIn := [.warm] }
  | "Button-Up Shirt" => some { blockedIn := [], suggestedIn := [.cool, .warm] }
  | "Hoodie" => some { blockedIn := [], suggestedIn := [.cold, .cool] }
  | "Jacket" => some { blockedIn := [.hot], suggestedIn := [.cold, .cool] }
  | "Sweatshirt" => some { blockedIn := [.hot], suggestedIn := [.cold, .cool] }
  | "Crewneck" => some { blockedIn := [.hot], suggestedIn := [.cold, .cool] }
  | "Sweater" => some { blockedIn := [.hot], suggestedIn := [.cold, .cool] }
  | "Shorts" => some { blockedIn := [.cold], suggestedIn := [.hot, .warm] }
  | "Skirt" => some { blockedIn := [.cold], suggestedIn := [.warm, .hot] }
  | "Jeans" => some { blockedIn := [], suggestedIn := [.cool, .warm] }
  | "Pants" => some { blockedIn := [], suggestedIn := [.cold, .cool, .warm] }
  | "Sweats" => some { blockedIn := [.hot], suggestedIn := [.cold, .cool] }
  | "Leggings" => some { blockedIn := [], suggestedIn := [.cold, .cool, .warm] }
  | _ => none

/-- `isClothingAppropriateForWeather` from `types.ts`. -/
def isClothingAppropriateForWeather (clothingType : String)
    (temperatureCategory : TemperatureCategory) : Bool :=
  match clothingWeatherRules clothingType with
  | none => true
  | some rules => !(decide (temperatureCategory ∈ rules.blockedIn))

/-- `isClothingSuggestedForWeather` from `types.ts`. -/
def isClothingSuggestedForWeather (clothingType : String)
    (temperatureCategory : TemperatureCategory) : Bool :=
  match clothingWeatherRules clothingType with
  | none => false
  | some rules => decide (temperatureCategory ∈ rules.suggestedIn)

/-- `isOuterwearRequired` from `types.ts`. -/
def isOuterwearRequired (temperatureCategory : TemperatureCategory) : Bool :=
  decide (temperatureCategory = .cold)

/-- `isOuterwearSuggested` from `types.ts`. -/
def isOuterwearSuggested (temperatureCategory : TemperatureCategory) : Bool :=
  decide (temperatureCategory = .cold ∨ temperatureCategory = .cool)

/-- `TEMPERATURE_THRESHOLDS` from `weatherApi.ts`. -/
def THRESHOLD_COLD : ℚ := 45

/-- `TEMPERATURE_THRESHOLDS.COOL`. -/
def THRESHOLD_COOL : ℚ := 65

/-- `TEMPERATURE_THRESHOLDS.WARM`. -/
def THRESHOLD_WARM : ℚ := 80

/-- `getTemperatureCategory` from `weatherApi.ts`. -/
def getTemperatureCategory (temp : ℚ) : TemperatureCategory :=
  if temp < THRESHOLD_COLD then .cold
  else if temp < THRESHOLD_COOL then .cool
  else if temp < THRESHOLD_WARM then .warm
  else .hot

/-- The `WEIGHT` record of the scoring engine. -/
structure Weights where
  COLOR_HARMONY : ℚ
  WEATHER : ℚ
  VARIETY : ℚ
  OCCASION : ℚ
  COMFORT : ℚ

/-- The engine's scoring weights. -/
def WEIGHT : Weights :=
  { COLOR_HARMONY := 0.30
    WEATHER := 0.25
    VARIETY := 0.20
    OCCASION := 0.15
    COMFORT := 0.10 }

/-- JavaScript truthiness of an optional string (`undefined` and the empty
string are falsy). -/
def optTruthy (o : Option String) : Bool :=
  !(o.getD "" == "")

/-- `colorHarmonyScore(top, bottom, outerwear, liked)` from the engine. -/
def colorHarmonyScore (top bottom : ClothingItem) (outerwear : Option ClothingItem)
    (liked : List ColorCombination) : ℚ :=
  if liked = [] then 0.5
  else
    let topColor := top.colors.head?.map String.toLower
    let bottomColor := bottom.colors.head?.map String.toLower
    if !(optTruthy topColor) || !(optTruthy bottomColor) then 0.3
    else
      let tc := topColor.getD ""
      let bc := bottomColor.getD ""
      let isLiked := liked.any fun c =>
        c.topColor.toLower == tc && c.bottomColor.toLower == bc
      let score : ℚ := if isLiked then 1.0 else 0.3
      match outerwear with
      | some ow =>
        match ow.colors.head? with
        | some owc0 =>
          if owc0 == "" then score
          else
            let owColor := owc0.toLower
            let owTopMatch := liked.any fun c =>
              c.topColor.toLower == owColor && c.bottomColor.toLower == tc
            if owTopMatch then min 1 (score + 0.15) else score
        | none => score
      | none => score

/-- The `for (const item of items)` loop body of `weatherScore`: returns `none`
on the early `return 0` (an inappropriate item), otherwise the accumulated
score after the suggestion bonuses. -/
def weatherItemsLoop (w : TemperatureCategory) : List ClothingItem → ℚ → Option ℚ
  | [], score => some score
  | item :: rest, score =>
    if !(isClothingAppropriateForWeather item.type w) then none
    else
      weatherItemsLoop w rest
        (if isClothingSuggestedForWeather item.type w then score + 0.15 else score)

/-- `weatherScore(top, bottom, outerwear, weather)` from the engine. -/
def weatherScore (top bottom : ClothingItem) (outerwear : Option ClothingItem)
    (weather : Option TemperatureCategory) : ℚ :=
  match weather with
  | none => 0.5
  | some w =>
    let items := [top, bottom] ++ outerwear.toList
    match weatherItemsLoop w items 0.5 with
    | none => 0
    | some s0 =>
      let s1 := if isOuterwearRequired w && !outerwear.isSome then s0 - 0.3 else s0
      let s2 := if isOuterwearSuggested w && outerwear.isSome then s1 + 0.1 else s1
      let s3 := if decide (w = .hot) && outerwear.isSome then s2 - 0.2 else s2
      max 0 (min 1 s3)

/-- `varietyScore(top, bottom, shoes, outerwear, recentWears)` from the engine. -/
def varietyScore (top bottom shoes : ClothingItem) (outerwear : Option ClothingItem)
    (recentWears : List OutfitWear) : ℚ :=
  if recentWears = [] then 0.5
  else
    let itemIds :=
      ([top.id, bottom.id, shoes.id] ++ (outerwear.map (·.id)).toList).filter
        fun s => !(s == "")
    let recentIds : List String := recentWears.foldl
      (fun acc w =>
        let acc := if optTruthy w.top_id then acc ++ [w.top_id.getD ""] else acc
        let acc := if optTruthy w.bottom_id then acc ++ [w.bottom_id.getD ""] else acc
        let acc := if optTruthy w.shoes_id then acc ++ [w.shoes_id.getD ""] else acc
        if optTruthy w.outerwear_id then acc ++ [w.outerwear_id.getD ""] else acc)
      []
    let overlap := (itemIds.filter fun id => recentIds.contains id).length
    max 0 (1 - (overlap : ℚ) * 0.25)

/-- `occasionScore(top, bottom, outerwear, occasion)` from the engine. -/
def occasionScore (top bottom : ClothingItem) (outerwear : Option ClothingItem)
    (occasion : Option Occasion) : ℚ :=
  match occasion with
  | none => 0.5
  | some occ =>
    let rules := occasionRules occ
    let score0 : ℚ := 0
    let count0 : ℕ := 0
    let topSection := typeToSection top.type
    let score1 :=
      if topSection = some .Tops ∧ top.type ∈ rules.tops then score0 + 1 else score0
    let count1 := count0 + 1
    let score2 := if bottom.type ∈ rules.bottoms then score1 + 1 else score1
    let count2 := count1 + 1
    match outerwear with
    | some ow =>
      let score3 := if ow.type ∈ rules.outerwear then score2 + 1 else score2
      let count3 := count2 + 1
      if count3 > 0 then score3 / (count3 : ℚ) else 0.5
    | none =>
      if count2 > 0 then score2 / (count2 : ℚ) else 0.5

/-- The ids of a wear's three comparable slots after `filter(Boolean)` (drops
missing ids and empty strings). -/
def wearIds (w : OutfitWear) : List String :=
  ([w.top_id, w.bottom_id, w.shoes_id].filterMap (fun o => o)).filter
    fun s => !(s == "")

/-- `comfortScore(top, bottom, shoes, ratedOutfits)` from the engine. -/
def comfortScore (top bottom shoes : ClothingItem)
    (ratedOutfits : List OutfitWear) : ℚ :=
  if ratedOutfits = [] then 0.5
  else
    let itemIds := [top.id, bottom.id, shoes.id]
    let acc := ratedOutfits.foldl
      (fun (acc : ℚ × ℕ) w =>
        let ids := wearIds w
        let overlap := (ids.filter fun id => itemIds.contains id).length
        if overlap > 0 then
          let rating := (w.comfort_rating.getD (w.rating.getD 5)) / 10
          (acc.1 + rating * ((overlap : ℚ) / (ids.length : ℚ)), acc.2 + 1)
        else acc)
      (0, 0)
    if acc.2 > 0 then acc.1 / (acc.2 : ℚ) else 0.5

/-- `scoreOutfit(top, outerwear, bottom, shoes, ctx)` from the engine. -/
def scoreOutfit (top : ClothingItem) (outerwear : Option ClothingItem)
    (bottom shoes : ClothingItem) (ctx : ScoringContext) : ℚ :=
  let ch := colorHarmonyScore top bottom outerwear ctx.likedCombinations * WEIGHT.COLOR_HARMONY
  let ws := weatherScore top bottom outerwear ctx.weather * WEIGHT.WEATHER
  let vs := varietyScore top bottom shoes outerwear ctx.recentWears * WEIGHT.VARIETY
  let os := occasionScore top bottom outerwear ctx.occasion * WEIGHT.OCCASION
  let cs := comfortScore top bottom shoes ctx.ratedOutfits * WEIGHT.COMFORT
  if ws = 0 ∧ ctx.weather.isSome then 0
  else ch + ws + vs + os + cs

/-- The random draws one loop iteration of `generateScoredOutfits` consumes:
three `Math.floor(Math.random() * len)` indices, the outcome of the
`Math.random() < 0.4` coin, and the outerwear index.  Arbitrary naturals are
reduced modulo the list length at use, covering every possible draw. -/
structure Pick where
  topR : ℕ
  bottomR : ℕ
  shoesR : ℕ
  owCoin : Bool
  owR : ℕ

/-- `l[Math.floor(Math.random() * l.length)]` with the draw `n` reduced modulo
the length; the default is unreachable for nonempty `l`. -/
def pickFrom (l : List ClothingItem) (n : ℕ) : ClothingItem :=
  l.getD (n % l.length) ⟨"", "", [], "", false⟩

/-- The dedup key `` `${top.id}-${outerwear?.id ?? 'none'}-${bottom.id}-${shoes.id}` ``
built by the generator. -/
def outfitKey (top : ClothingItem) (outerwear : Option ClothingItem)
    (bottom shoes : ClothingItem) : String :=
  top.id ++ "-" ++ (outerwear.map ClothingItem.id).getD "none" ++
    "-" ++ bottom.id ++ "-" ++ shoes.id

/-- The key of an already-built candidate. -/
def candKey (c : OutfitCandidate) : String :=
  outfitKey c.top c.outerwear c.bottom c.shoes

/-- The outerwear draw of one loop iteration: outerwear is included when
outerwear items exist and the weather is cold or cool, or on a 40% coin
(`Math.random() < 0.4`, modelled by `p.owCoin`). -/
def drawOuterwear (outerwearItems : List ClothingItem) (ctx : ScoringContext)
    (p : Pick) : Option ClothingItem :=
  if decide (outerwearItems.length > 0) &&
      (decide (ctx.weather = some .cold) || decide (ctx.weather = some .cool) ||
        p.owCoin) then
    some (pickFrom outerwearItems p.owR)
  else none

/-- One iteration of the sampling loop of `generateScoredOutfits`: draw the
slots from `p`, dedup against `seen` (`continue` keeps the state unchanged),
score, and push the candidate when its score is positive.  Returns the updated
`(seen, candidates)` pair. -/
def genStep (tops bottoms shoesItems outerwearItems : List ClothingItem)
    (ctx : ScoringContext) (p : Pick) (seen : List String)
    (cands : List OutfitCandidate) : List String × List OutfitCandidate :=
  let top := pickFrom tops p.topR
  let bottom := pickFrom bottoms p.bottomR
  let shoes := pickFrom shoesItems p.shoesR
  let outerwear := drawOuterwear outerwearItems ctx p
  let key := outfitKey top outerwear bottom shoes
  if key ∈ seen then (seen, cands)
  else
    let score := scoreOutfit top outerwear bottom shoes ctx
    if score > 0 then
      (key :: seen, cands ++ [⟨top, outerwear, bottom, shoes, score⟩])
    else (key :: seen, cands)

/-- The sampling loop of `generateScoredOutfits`: `fuel` counts the remaining
iterations (started at `maxCombos * 3`), `i` is the loop index feeding the
random oracle, `seen` the dedup set and `cands` the accumulator; the loop
also stops once `cands` reaches `maxCombos` candidates. -/
def genLoop (tops bottoms shoesItems outerwearItems : List ClothingItem)
    (ctx : ScoringContext) (maxCombos : ℕ) (picks : ℕ → Pick) :
    ℕ → ℕ → List String → List OutfitCandidate → List OutfitCandidate
  | 0, _, _, cands => cands
  | fuel + 1, i, seen, cands =>
    if cands.length < maxCombos then
      let sc := genStep tops bottoms shoesItems outerwearItems ctx (picks i) seen cands
      genLoop tops bottoms shoesItems outerwearItems ctx maxCombos picks fuel (i + 1)
        sc.1 sc.2
    else cands

/-- `candidates.sort((a, b) => b.score - a.score)`: descending by score. -/
def sortByScoreDesc (cands : List OutfitCandidate) : List OutfitCandidate :=
  cands.mergeSort fun a b => decide (b.score ≤ a.score)

/-- `items.filter((i) => typeToSection[i.type] === 'Tops')`. -/
def sectionTops (items : List ClothingItem) : List ClothingItem :=
  items.filter fun i => decide (typeToSection i.type = some .Tops)

/-- `items.filter((i) => typeToSection[i.type] === 'Outerwear')`. -/
def sectionOuterwear (items : List ClothingItem) : List ClothingItem :=
  items.filter fun i => decide (typeToSection i.type = some .Outerwear)

/-- `items.filter((i) => typeToSection[i.type] === 'Bottoms')`. -/
def sectionBottoms (items : List ClothingItem) : List ClothingItem :=
  items.filter fun i => decide (typeToSection i.type = some .Bottoms)

/-- `items.filter((i) => typeToSection[i.type] === 'Shoes')`. -/
def sectionShoes (items : List ClothingItem) : List ClothingItem :=
  items.filter fun i => decide (typeToSection i.type = some .Shoes)

/-- The combinatorial cap `min(|tops| * |bottoms| * |shoes| * (|outerwear| + 1), 500)`
computed by `generateScoredOutfits` on the section partitions of `items`. -/
def combosCap (items : List ClothingItem) : ℕ :=
  min ((sectionTops items).length * (sectionBottoms items).length *
      (sectionShoes items).length * ((sectionOuterwear items).length + 1))
    500

/-- `generateScoredOutfits(items, ctx, count)` from the engine, with the random
oracle `picks` made explicit. -/
def generateScoredOutfits (items : List ClothingItem) (ctx : ScoringContext)
    (count : ℕ) (picks : ℕ → Pick) : List OutfitCandidate :=
  let tops := sectionTops items
  let outerwearItems := sectionOuterwear items
  let bottoms := sectionBottoms items
  let shoesItems := sectionShoes items
  if tops.length = 0 ∨ bottoms.length = 0 ∨ shoesItems.length = 0 then []
  else
    let maxCombos :=
      min (tops.length * bottoms.length * shoesItems.length * (outerwearItems.length + 1))
        500
    let candidates :=
      genLoop tops bottoms shoesItems outerwearItems ctx maxCombos picks
        (maxCombos * 3) 0 [] []
    (sortByScoreDesc candidates).take count

/-! ### Spec-side definitions

Definitions in this block follow the wording of the specification (not the
source) and exist to be compared with the source-derived functions above. -/

/-- The spec's notion of an item type being blocked in a temperature
category: the type is in that category's `blockedIn` set (types absent from
`clothingWeatherRules` have an empty blocked set). -/
def blockedInCategory (clothingType : String) (w : TemperatureCategory) : Prop :=
  match clothingWeatherRules clothingType with
  | none => False
  | some rules => w ∈ rules.blockedIn

instance (clothingType : String) (w : TemperatureCategory) :
    Decidable (blockedInCategory clothingType w) := by
  unfold blockedInCategory
  match clothingWeatherRules clothingType with
  | none => exact inferInstanceAs (Decidable False)
  | some rules => exact inferInstanceAs (Decidable (w ∈ rules.blockedIn))

/-- The comfort scorer exactly as the claim words it: each overlapping wear is
weighted by `overlap / 3` — always three comparable slots — instead of the
number of ids the wear actually carries. -/
def comfortScoreClaimed (top bottom shoes : ClothingItem)
    (ratedOutfits : List OutfitWear) : ℚ :=
  if ratedOutfits = [] then 0.5
  else
    let itemIds := [top.id, bottom.id, shoes.id]
    let acc := ratedOutfits.foldl
      (fun (acc : ℚ × ℕ) w =>
        let ids := wearIds w
        let overlap := (ids.filter fun id => itemIds.contains id).length
        if overlap > 0 then
          let rating := (w.comfort_rating.getD (w.rating.getD 5)) / 10
          (acc.1 + rating * ((overlap : ℚ) / 3), acc.2 + 1)
        else acc)
      (0, 0)
    if acc.2 > 0 then acc.1 / (acc.2 : ℚ) else 0.5

/-- The number of present (non-empty) ids among a wear's three comparable
slots. -/
def wearSlotCount (w : OutfitWear) : ℕ := (wearIds w).length

/-- A wear's overlap with the candidate's `{top.id, bottom.id, shoes.id}`:
how many of the wear's present ids lie in that set. -/
def wearOverlap (top bottom shoes : ClothingItem) (w : OutfitWear) : ℕ :=
  ((wearIds w).filter fun id => [top.id, bottom.id, shoes.id].contains id).length

/-- The effective rating of a wear: `(comfort_rating ?? rating ?? 5) / 10`. -/
def wearRating (w : OutfitWear) : ℚ :=
  (w.comfort_rating.getD (w.rating.getD 5)) / 10

/-- The comfort scorer as the amended claim words it: wears with positive
overlap are the matchedWears; each match contributes its effective rating weighted
by `overlap / (number of present ids in the wear)`, and the final score is the
sum of contributions divided by the number of matchedWears, `0.5` when there is no
match (in particular when the rated list is empty). -/
def comfortScoreAmended (top bottom shoes : ClothingItem)
    (ratedOutfits : List OutfitWear) : ℚ :=
  let matchedWears := ratedOutfits.filter fun w => decide (wearOverlap top bottom shoes w > 0)
  if matchedWears = [] then 0.5
  else
    (matchedWears.map fun w =>
        wearRating w * ((wearOverlap top bottom shoes w : ℚ) / (wearSlotCount w : ℚ))).sum /
      (matchedWears.length : ℚ)

/-- The occasion scorer exactly as the claim words it: the top check is
*evaluated at all* only when the top's section is `Tops`; the score is
passed checks over evaluated checks, `0.5` when no check was evaluated. -/
def occasionScoreClaimed (top bottom : ClothingItem) (outerwear : Option ClothingItem)
    (occasion : Option Occasion) : ℚ :=
  match occasion with
  | none => 0.5
  | some occ =>
    let rules := occasionRules occ
    let checks : List Bool :=
      (if typeToSection top.type = some .Tops then [decide (top.type ∈ rules.tops)]
       else []) ++
      [decide (bottom.type ∈ rules.bottoms)] ++
      (match outerwear with
       | some ow => [decide (ow.type ∈ rules.outerwear)]
       | none => [])
    if checks.length = 0 then 0.5
    else (checks.count true : ℚ) / (checks.length : ℚ)

/-- The occasion scorer as the amended claim words it: all checks are
evaluated (the top check and the bottom check always, the outerwear check when
outerwear is present); the top check *passes* only when the top's section is
`Tops` and its type is allowed.  The score is passed over evaluated. -/
def occasionScoreAmended (top bottom : ClothingItem) (outerwear : Option ClothingItem)
    (occasion : Option Occasion) : ℚ :=
  match occasion with
  | none => 0.5
  | some occ =>
    let rules := occasionRules occ
    let checks : List Bool :=
      [decide (typeToSection top.type = some .Tops ∧ top.type ∈ rules.tops),
       decide (bottom.type ∈ rules.bottoms)] ++
      (match outerwear with
       | some ow => [decide (ow.type ∈ rules.outerwear)]
       | none => [])
    if checks.length = 0 then 0.5
    else (checks.count true : ℚ) / (checks.length : ℚ)

/-! ### Concrete items for counterexamples and witnesses -/

/-- A small wardrobe item for tests: blue T-Shirt. -/
def exTee : ClothingItem := ⟨"t1", "T-Shirt", ["blue"], "", false⟩

/-- A long sleeve shirt (never weather-blocked). -/
def exLss : ClothingItem := ⟨"t2", "Long Sleeve Shirt", ["white"], "", false⟩

/-- Jeans (never weather-blocked). -/
def exJeans : ClothingItem := ⟨"b1", "Jeans", ["denim"], "", false⟩

/-- Shoes. -/
def exShoes : ClothingItem := ⟨"s1", "Shoes", ["black"], "", false⟩

/-- A shoes-slot item whose recorded type is `Tank Top` (blocked in cold);
such an item can exist as data even though the generator would never place it
in the shoes slot. -/
def exShoesTank : ClothingItem := ⟨"s2", "Tank Top", ["black"], "", false⟩

/-- A jacket (section `Outerwear`). -/
def exJacket : ClothingItem := ⟨"j1", "Jacket", ["navy blue"], "", false⟩

/-- The all-empty scoring context. -/
def emptyCtx : ScoringContext := ⟨[], none, [], none, []⟩

/-- The empty context with cold weather supplied. -/
def coldCtx : ScoringContext := ⟨[], some .cold, [], none, []⟩

/-- A rated wear recording only a top (its other slots missing), rating left
to the `5` default. -/
def exWearTopOnly : OutfitWear := ⟨some "t1", none, none, none, none, none⟩

/-- A constant random oracle. -/
def constPicks : ℕ → Pick := fun _ => ⟨0, 0, 0, false, 0⟩

/-- A different constant random oracle. -/
def altPicks : ℕ → Pick := fun _ => ⟨1, 1, 1, true, 1⟩

/-- An item whose type is absent from the `typeToSection` taxonomy. -/
def exUnknown : ClothingItem := ⟨"u1", "Banana", ["yellow"], "", false⟩



/-- C4: `getTemperatureCategory` maps every temperature to exactly one of the
four categories, partitioning the rationals with the fixed thresholds: below
45°F cold, 45–65°F (half-open) cool, 65–80°F (half-open) warm, and 80°F and
above hot — no overlap, no gaps. -/
theorem getTemperatureCategory_thresholds (t : ℚ) :
    (getTemperatureCategory t = .cold ↔ t < 45) ∧
    (getTemperatureCategory t = .cool ↔ 45 ≤ t ∧ t < 65) ∧
    (getTemperatureCategory t = .warm ↔ 65 ≤ t ∧ t < 80) ∧
    (getTemperatureCategory t = .hot ↔ 80 ≤ t) := by
  unfold getTemperatureCategory THRESHOLD_COLD THRESHOLD_COOL THRESHOLD_WARM
  split_ifs with h1 h2 h3
  · exact ⟨iff_of_true rfl h1,
      iff_of_false (by decide) (by rintro ⟨a, _⟩; linarith),
      iff_of_false (by decide) (by rintro ⟨a, _⟩; linarith),
      iff_of_false (by decide) (by intro a; linarith)⟩
  · exact ⟨iff_of_false (by decide) (by intro a; exact h1 a),
      iff_of_true rfl ⟨by linarith, h2⟩,
      iff_of_false (by decide) (by rintro ⟨a, _⟩; linarith),
      iff_of_false (by decide) (by intro a; linarith)⟩
  · exact ⟨iff_of_false (by decide) (by intro a; exact h1 a),
      iff_of_false (by decide) (by rintro ⟨_, b⟩; exact h2 b),
      iff_of_true rfl ⟨by linarith, h3⟩,
      iff_of_false (by decide) (by intro a; linarith)⟩
  · exact ⟨iff_of_false (by decide) (by intro a; exact h1 a),
      iff_of_false (by decide) (by rintro ⟨_, b⟩; exact h2 b),
      iff_of_false (by decide) (by rintro ⟨_, b⟩; exact h3 b),
      iff_of_true rfl (by linarith)⟩

/-- C8: the five scoring weights sum to exactly 1, and with no liked
combinations, no weather, no recent wears, no occasion and no rated wears
every scorer returns exactly 0.5 and the aggregate `scoreOutfit` equals
exactly 0.5 for every candidate. -/
theorem weights_sum_and_neutral :
    WEIGHT.COLOR_HARMONY + WEIGHT.WEATHER + WEIGHT.VARIETY + WEIGHT.OCCASION +
        WEIGHT.COMFORT = 1 ∧
    ∀ top ow bottom shoes,
      colorHarmonyScore top bottom ow [] = 0.5 ∧
      weatherScore top bottom ow none = 0.5 ∧
      varietyScore top bottom shoes ow [] = 0.5 ∧
      occasionScore top bottom ow none = 0.5 ∧
      comfortScore top bottom shoes [] = 0.5 ∧
      scoreOutfit top ow bottom shoes emptyCtx = 0.5 := by
  constructor
  · norm_num [WEIGHT]
  · intro top ow bottom shoes
    refine ⟨rfl, rfl, rfl, rfl, rfl, ?_⟩
    norm_num [scoreOutfit, emptyCtx, colorHarmonyScore, weatherScore, varietyScore,
      occasionScore, comfortScore, WEIGHT]

lemma blocked_iff_not_appropriate (t : String) (w : TemperatureCategory) :
    blockedInCategory t w ↔ isClothingAppropriateForWeather t w = false := by
  unfold blockedInCategory isClothingAppropriateForWeather
  rcases clothingWeatherRules t with _ | rules <;> simp

lemma weatherItemsLoop_none_iff (w : TemperatureCategory) (items : List ClothingItem)
    (s : ℚ) :
    weatherItemsLoop w items s = none ↔
      ∃ it ∈ items, isClothingAppropriateForWeather it.type w = false := by
  induction items generalizing s with
  | nil => simp [weatherItemsLoop]
  | cons it rest ih =>
    by_cases h : isClothingAppropriateForWeather it.type w <;>
      simp [weatherItemsLoop, h, ih]

lemma weatherItemsLoop_le (w : TemperatureCategory) (items : List ClothingItem)
    (s s' : ℚ) (h : weatherItemsLoop w items s = some s') : s ≤ s' := by
  induction items generalizing s with
  | nil =>
    simp [weatherItemsLoop] at h
    linarith [h]
  | cons it rest ih =>
    unfold weatherItemsLoop at h
    split at h
    · exact absurd h (by simp)
    · have := ih _ h
      split at this <;> linarith

lemma exists_blocked_iff (top bottom : ClothingItem) (ow : Option ClothingItem)
    (w : TemperatureCategory) :
    (∃ it ∈ [top, bottom] ++ ow.toList, blockedInCategory it.type w) ↔
      ∃ it ∈ [top, bottom] ++ ow.toList,
        isClothingAppropriateForWeather it.type w = false := by
  constructor <;> rintro ⟨it, hit, hb⟩
  · exact ⟨it, hit, (blocked_iff_not_appropriate _ _).mp hb⟩
  · exact ⟨it, hit, (blocked_iff_not_appropriate _ _).mpr hb⟩

lemma weatherScore_eq_zero_of_blocked (top bottom : ClothingItem)
    (ow : Option ClothingItem) (w : TemperatureCategory)
    (hex : ∃ it ∈ [top, bottom] ++ ow.toList,
      isClothingAppropriateForWeather it.type w = false) :
    weatherScore top bottom ow (some w) = 0 := by
  have hl : weatherItemsLoop w ([top, bottom] ++ ow.toList) 0.5 = none := by
    rw [weatherItemsLoop_none_iff]
    simpa using hex
  simp only [weatherScore, hl]

lemma weatherScore_ge_of_not_blocked (top bottom : ClothingItem)
    (ow : Option ClothingItem) (w : TemperatureCategory)
    (hno : ¬ ∃ it ∈ [top, bottom] ++ ow.toList,
      isClothingAppropriateForWeather it.type w = false) :
    (0.2 : ℚ) ≤ weatherScore top bottom ow (some w) := by
  obtain ⟨s0, hl⟩ : ∃ s0, weatherItemsLoop w ([top, bottom] ++ ow.toList) 0.5 = some s0 := by
    cases h : weatherItemsLoop w ([top, bottom] ++ ow.toList) 0.5 with
    | none =>
      exfalso
      apply hno
      exact (weatherItemsLoop_none_iff w ([top, bottom] ++ ow.toList) 0.5).mp h
    | some s0 => exact ⟨s0, rfl⟩
  have hs0 : (0.5 : ℚ) ≤ s0 := weatherItemsLoop_le w _ _ _ hl
  simp only [weatherScore, hl]
  rcases w <;> rcases ow with _ | o <;>
    simp [isOuterwearRequired, isOuterwearSuggested] <;>
    exact Or.inr ⟨by norm_num, by linarith⟩

/-- C10: with a temperature category supplied, `weatherScore` returns 0 iff
some present item (top, bottom, or outerwear) is blocked in that category, and
whenever no present item is blocked the score is at least 0.2 — so the
hard-reject sentinel 0 is never produced by the final clamp and is unambiguous
in the aggregate scorer's zero test. -/
theorem weatherScore_zero_iff_blocked (top bottom : ClothingItem)
    (ow : Option ClothingItem) (w : TemperatureCategory) :
    (weatherScore top bottom ow (some w) = 0 ↔
      ∃ it ∈ [top, bottom] ++ ow.toList, blockedInCategory it.type w) ∧
    ((∀ it ∈ [top, bottom] ++ ow.toList, ¬ blockedInCategory it.type w) →
      (0.2 : ℚ) ≤ weatherScore top bottom ow (some w)) := by
  have hnot : ∀ (hno : ¬ ∃ it ∈ [top, bottom] ++ ow.toList, blockedInCategory it.type w),
      (0.2 : ℚ) ≤ weatherScore top bottom ow (some w) := by
    intro hno
    refine weatherScore_ge_of_not_blocked top bottom ow w ?_
    rw [← exists_blocked_iff]
    exact hno
  constructor
  · constructor
    · intro h0
      by_contra hno
      have := hnot hno
      rw [h0] at this
      norm_num at this
    · intro hex
      exact weatherScore_eq_zero_of_blocked top bottom ow w
        ((exists_blocked_iff top bottom ow w).mp hex)
  · intro hall
    refine hnot ?_
    rintro ⟨it, hit, hb⟩
    exact hall it hit hb

lemma pickFrom_mem (l : List ClothingItem) (n : ℕ) (h : l ≠ []) : pickFrom l n ∈ l := by
  have hlt : n % l.length < l.length := Nat.mod_lt _ (List.length_pos.mpr h)
  unfold pickFrom
  rw [List.getD_eq_getElem?_getD, List.getElem?_eq_getElem hlt]
  simp [List.getElem_mem]

lemma drawOuterwear_mem (owItems : List ClothingItem) (ctx : ScoringContext)
    (p : Pick) (o : ClothingItem) (h : drawOuterwear owItems ctx p = some o) :
    o ∈ owItems := by
  unfold drawOuterwear at h
  split at h
  · next hcond =>
    injection h with h
    subst h
    have hlen : owItems.length > 0 := by
      have := (Bool.and_eq_true _ _).mp hcond |>.1
      exact of_decide_eq_true this
    exact pickFrom_mem _ _ (by intro hnil; rw [hnil] at hlen; simp at hlen)
  · exact absurd h (by simp)

lemma genStep_snd_prop {P : OutfitCandidate → Prop}
    (tops bottoms shoesItems owItems : List ClothingItem) (ctx : ScoringContext)
    (p : Pick) (seen : List String) (cands : List OutfitCandidate)
    (htops : tops ≠ []) (hbottoms : bottoms ≠ []) (hshoes : shoesItems ≠ [])
    (hP : ∀ top ow bottom shoes, top ∈ tops → bottom ∈ bottoms → shoes ∈ shoesItems →
      (∀ o, ow = some o → o ∈ owItems) → 0 < scoreOutfit top ow bottom shoes ctx →
      P ⟨top, ow, bottom, shoes, scoreOutfit top ow bottom shoes ctx⟩)
    (hc : ∀ c ∈ cands, P c) :
    ∀ c ∈ (genStep tops bottoms shoesItems owItems ctx p seen cands).2, P c := by
  intro c hcmem
  simp only [genStep] at hcmem
  split at hcmem
  · exact hc c hcmem
  · split at hcmem
    · next hpos =>
      simp only [List.mem_append, List.mem_singleton] at hcmem
      rcases hcmem with hcm | hcm
      · exact hc c hcm
      · subst hcm
        exact hP _ _ _ _ (pickFrom_mem _ _ htops) (pickFrom_mem _ _ hbottoms)
          (pickFrom_mem _ _ hshoes) (fun o ho => drawOuterwear_mem _ _ _ _ ho) hpos
    · exact hc c hcmem


lemma genLoop_mem_prop {P : OutfitCandidate → Prop}
    (tops bottoms shoesItems owItems : List ClothingItem) (ctx : ScoringContext)
    (maxCombos : ℕ) (picks : ℕ → Pick)
    (htops : tops ≠ []) (hbottoms : bottoms ≠ []) (hshoes : shoesItems ≠ [])
    (hP : ∀ top ow bottom shoes, top ∈ tops → bottom ∈ bottoms → shoes ∈ shoesItems →
      (∀ o, ow = some o → o ∈ owItems) → 0 < scoreOutfit top ow bottom shoes ctx →
      P ⟨top, ow, bottom, shoes, scoreOutfit top ow bottom shoes ctx⟩) :
    ∀ fuel i seen cands, (∀ c ∈ cands, P c) →
      ∀ c ∈ genLoop tops bottoms shoesItems owItems ctx maxCombos picks fuel i seen cands,
        P c := by
  intro fuel
  induction fuel with
  | zero =>
    intro i seen cands hc
    simpa [genLoop] using hc
  | succ n ih =>
    intro i seen cands hc
    simp only [genLoop]
    split
    · exact ih (i + 1) _ _
        (genStep_snd_prop tops bottoms shoesItems owItems ctx (picks i) seen cands
          htops hbottoms hshoes hP hc)
    · exact hc

lemma genStep_keys (tops bottoms shoesItems owItems : List ClothingItem)
    (ctx : ScoringContext) (p : Pick) (seen : List String)
    (cands : List OutfitCandidate) (s' : List String) (cs' : List OutfitCandidate)
    (hstep : genStep tops bottoms shoesItems owItems ctx p seen cands = (s', cs'))
    (hseen : ∀ c ∈ cands, candKey c ∈ seen)
    (hpw : cands.Pairwise fun a b => candKey a ≠ candKey b) :
    (∀ c ∈ cs', candKey c ∈ s') ∧
    (cs'.Pairwise fun a b => candKey a ≠ candKey b) := by
  simp only [genStep] at hstep
  split at hstep
  · next hkey =>
    injection hstep with h1 h2
    subst h1
    subst h2
    exact ⟨hseen, hpw⟩
  · next hkey =>
    split at hstep
    · injection hstep with h1 h2
      subst h1
      subst h2
      constructor
      · intro c hcm
        simp only [List.mem_append, List.mem_singleton] at hcm
        rcases hcm with hcm | hcm
        · exact List.mem_cons_of_mem _ (hseen c hcm)
        · subst hcm
          exact List.mem_cons_self _ _
      · rw [List.pairwise_append]
        refine ⟨hpw, List.pairwise_singleton _ _, ?_⟩
        intro a ha b hb
        simp only [List.mem_singleton] at hb
        subst hb
        intro heq
        apply hkey
        have hks : candKey a ∈ seen := hseen a ha
        rw [heq] at hks
        simpa [candKey] using hks
    · injection hstep with h1 h2
      subst h1
      subst h2
      exact ⟨fun c hcm => List.mem_cons_of_mem _ (hseen c hcm), hpw⟩

lemma genLoop_pairwise_keys (tops bottoms shoesItems owItems : List ClothingItem)
    (ctx : ScoringContext) (maxCombos : ℕ) (picks : ℕ → Pick) :
    ∀ fuel i seen cands, (∀ c ∈ cands, candKey c ∈ seen) →
      (cands.Pairwise fun a b => candKey a ≠ candKey b) →
      (genLoop tops bottoms shoesItems owItems ctx maxCombos picks fuel i
          seen cands).Pairwise fun a b => candKey a ≠ candKey b := by
  intro fuel
  induction fuel with
  | zero =>
    intro i seen cands _ hpw
    simpa [genLoop] using hpw
  | succ n ih =>
    intro i seen cands hseen hpw
    simp only [genLoop]
    split
    · have hk := genStep_keys tops bottoms shoesItems owItems ctx (picks i) seen cands
        (genStep tops bottoms shoesItems owItems ctx (picks i) seen cands).1
        (genStep tops bottoms shoesItems owItems ctx (picks i) seen cands).2
        rfl hseen hpw
      exact ih (i + 1) _ _ hk.1 hk.2
    · exact hpw

lemma genStep_snd_length (tops bottoms shoesItems owItems : List ClothingItem)
    (ctx : ScoringContext) (p : Pick) (seen : List String)
    (cands : List OutfitCandidate) :
    (genStep tops bottoms shoesItems owItems ctx p seen cands).2.length ≤
      cands.length + 1 := by
  simp only [genStep]
  split
  · simp
  · split <;> simp

lemma genLoop_length_le (tops bottoms shoesItems owItems : List ClothingItem)
    (ctx : ScoringContext) (maxCombos : ℕ) (picks : ℕ → Pick) :
    ∀ fuel i seen cands, cands.length ≤ maxCombos →
      (genLoop tops bottoms shoesItems owItems ctx maxCombos picks fuel i
          seen cands).length ≤ maxCombos := by
  intro fuel
  induction fuel with
  | zero =>
    intro i seen cands hlen
    simpa [genLoop] using hlen
  | succ n ih =>
    intro i seen cands hlen
    simp only [genLoop]
    split
    · next hlt =>
      refine ih (i + 1) _ _ ?_
      calc (genStep tops bottoms shoesItems owItems ctx (picks i) seen cands).2.length
          ≤ cands.length + 1 := genStep_snd_length _ _ _ _ _ _ _ _
        _ ≤ maxCombos := hlt
    · exact hlen

lemma genLoop_congr_picks (tops bottoms shoesItems owItems : List ClothingItem)
    (ctx : ScoringContext) (maxCombos : ℕ) (picks picks2 : ℕ → Pick) :
    ∀ fuel i seen cands, (∀ j, i ≤ j → j < i + fuel → picks j = picks2 j) →
      genLoop tops bottoms shoesItems owItems ctx maxCombos picks fuel i seen cands =
        genLoop tops bottoms shoesItems owItems ctx maxCombos picks2 fuel i seen cands := by
  intro fuel
  induction fuel with
  | zero => intro i seen cands _; rfl
  | succ n ih =>
    intro i seen cands hagree
    simp only [genLoop]
    split
    · rw [hagree i le_rfl (by omega)]
      exact ih (i + 1) _ _ fun j hj1 hj2 => hagree j (by omega) (by omega)
    · rfl


lemma sortByScoreDesc_perm (l : List OutfitCandidate) : (sortByScoreDesc l).Perm l :=
  List.mergeSort_perm l _

lemma scoreOutfit_eq_zero_of_blocked (top : ClothingItem) (ow : Option ClothingItem)
    (bottom shoes : ClothingItem) (ctx : ScoringContext) (w : TemperatureCategory)
    (hw : ctx.weather = some w)
    (hex : ∃ it ∈ [top, bottom] ++ ow.toList, blockedInCategory it.type w) :
    scoreOutfit top ow bottom shoes ctx = 0 := by
  have h0 : weatherScore top bottom ow (some w) = 0 :=
    weatherScore_eq_zero_of_blocked _ _ _ _ ((exists_blocked_iff _ _ _ _).mp hex)
  simp [scoreOutfit, hw, h0]

lemma generate_mem_prop {P : OutfitCandidate → Prop} (items : List ClothingItem)
    (ctx : ScoringContext) (count : ℕ) (picks : ℕ → Pick)
    (hP : ∀ top ow bottom shoes, top ∈ sectionTops items → bottom ∈ sectionBottoms items →
      shoes ∈ sectionShoes items → (∀ o, ow = some o → o ∈ sectionOuterwear items) →
      0 < scoreOutfit top ow bottom shoes ctx →
      P ⟨top, ow, bottom, shoes, scoreOutfit top ow bottom shoes ctx⟩) :
    ∀ c ∈ generateScoredOutfits items ctx count picks, P c := by
  intro c hc
  simp only [generateScoredOutfits] at hc
  split at hc
  · simp at hc
  · next hcond =>
    push_neg at hcond
    obtain ⟨ht, hb, hs⟩ := hcond
    have hc2 := (List.take_sublist _ _).subset hc
    rw [sortByScoreDesc] at hc2
    have hc3 := (List.mergeSort_perm _ _).subset hc2
    refine genLoop_mem_prop (sectionTops items) (sectionBottoms items)
      (sectionShoes items) (sectionOuterwear items) ctx _ picks ?_ ?_ ?_ hP _ 0 [] []
      (by simp) c hc3
    · intro hnil; rw [hnil] at ht; simp at ht
    · intro hnil; rw [hnil] at hb; simp at hb
    · intro hnil; rw [hnil] at hs; simp at hs

lemma candKey_eq_of_ids {a b : OutfitCandidate} (h1 : a.top.id = b.top.id)
    (h2 : a.outerwear.map ClothingItem.id = b.outerwear.map ClothingItem.id)
    (h3 : a.bottom.id = b.bottom.id) (h4 : a.shoes.id = b.shoes.id) :
    candKey a = candKey b := by
  unfold candKey outfitKey
  rw [h1, h2, h3, h4]

/-- C5: the list returned by `generateScoredOutfits` never contains two
candidates with an identical identifier tuple
(top.id, outerwear.id-or-null, bottom.id, shoes.id). -/
theorem generate_no_duplicate_tuples (items : List ClothingItem) (ctx : ScoringContext)
    (count : ℕ) (picks : ℕ → Pick) :
    (generateScoredOutfits items ctx count picks).Pairwise fun a b =>
      ¬(a.top.id = b.top.id ∧
        a.outerwear.map ClothingItem.id = b.outerwear.map ClothingItem.id ∧
        a.bottom.id = b.bottom.id ∧ a.shoes.id = b.shoes.id) := by
  simp only [generateScoredOutfits]
  split
  · simp
  · have hpwL := genLoop_pairwise_keys (sectionTops items) (sectionBottoms items)
      (sectionShoes items) (sectionOuterwear items) ctx
      (min ((sectionTops items).length * (sectionBottoms items).length *
        (sectionShoes items).length * ((sectionOuterwear items).length + 1)) 500) picks
      (min ((sectionTops items).length * (sectionBottoms items).length *
        (sectionShoes items).length * ((sectionOuterwear items).length + 1)) 500 * 3)
      0 [] [] (by simp) (by simp)
    have hpwS := (List.Perm.pairwise_iff (fun h he => h he.symm)
      (sortByScoreDesc_perm _)).mpr hpwL
    have hpwT := hpwS.sublist (List.take_sublist count _)
    exact hpwT.imp fun hne hand => hne (candKey_eq_of_ids hand.1 hand.2.1 hand.2.2.1 hand.2.2.2)

/-- C6: `generateScoredOutfits` returns at most `count` candidates and at most
the combinatorial cap `min(|tops| * |bottoms| * |shoes| * (|outerwear| + 1), 500)`;
and its result depends only on the first `cap * 3` entries of the random
oracle — the sampling loop performs at most `cap * 3` draws. -/
theorem generate_length_bounds (items : List ClothingItem) (ctx : ScoringContext)
    (count : ℕ) (picks picks2 : ℕ → Pick) :
    (generateScoredOutfits items ctx count picks).length ≤ count ∧
    (generateScoredOutfits items ctx count picks).length ≤ combosCap items ∧
    ((∀ j, j < combosCap items * 3 → picks j = picks2 j) →
      generateScoredOutfits items ctx count picks =
        generateScoredOutfits items ctx count picks2) := by
  refine ⟨?_, ?_, ?_⟩
  · simp only [generateScoredOutfits]
    split
    · simp
    · rw [List.length_take]
      exact min_le_left _ _
  · simp only [generateScoredOutfits, combosCap]
    split
    · simp
    · rw [List.length_take]
      refine le_trans (min_le_right _ _) ?_
      rw [(sortByScoreDesc_perm _).length_eq]
      exact genLoop_length_le _ _ _ _ _ _ _ _ _ _ _ (by simp)
  · intro hagree
    simp only [generateScoredOutfits]
    by_cases hcond : (sectionTops items).length = 0 ∨ (sectionBottoms items).length = 0 ∨
        (sectionShoes items).length = 0
    · rw [if_pos hcond, if_pos hcond]
    · rw [if_neg hcond, if_neg hcond]
      have := genLoop_congr_picks (sectionTops items) (sectionBottoms items)
        (sectionShoes items) (sectionOuterwear items) ctx
        (min ((sectionTops items).length * (sectionBottoms items).length *
          (sectionShoes items).length * ((sectionOuterwear items).length + 1)) 500)
        picks picks2
        (min ((sectionTops items).length * (sectionBottoms items).length *
          (sectionShoes items).length * ((sectionOuterwear items).length + 1)) 500 * 3)
        0 [] [] ?_
      · rw [this]
      · intro j _ hj2
        refine hagree j ?_
        simpa [combosCap] using hj2


/-- C1 (amended): with a temperature category supplied, if the top, the
bottom, or the present outerwear of a candidate has a type blocked in that
category, then `weatherScore` is exactly 0, `scoreOutfit` is exactly 0, and no
candidate with those slots ever appears in `generateScoredOutfits` output.
(The claim's notion of present item must exclude the shoes slot: the weather
scorer never inspects shoes — see the counterexample.) -/
theorem blocked_candidate_rejected (items : List ClothingItem) (ctx : ScoringContext)
    (count : ℕ) (picks : ℕ → Pick) (t b s : ClothingItem) (ow : Option ClothingItem)
    (w : TemperatureCategory) (hw : ctx.weather = some w)
    (hblocked : ∃ it ∈ [t, b] ++ ow.toList, blockedInCategory it.type w) :
    weatherScore t b ow (some w) = 0 ∧
    scoreOutfit t ow b s ctx = 0 ∧
    ∀ c ∈ generateScoredOutfits items ctx count picks,
      ¬(c.top = t ∧ c.outerwear = ow ∧ c.bottom = b ∧ c.shoes = s) := by
  have h0 : weatherScore t b ow (some w) = 0 :=
    weatherScore_eq_zero_of_blocked _ _ _ _ ((exists_blocked_iff _ _ _ _).mp hblocked)
  have hsc : scoreOutfit t ow b s ctx = 0 :=
    scoreOutfit_eq_zero_of_blocked t ow b s ctx w hw hblocked
  refine ⟨h0, hsc, ?_⟩
  refine generate_mem_prop items ctx count picks ?_
  intro top2 ow2 bottom2 shoes2 _ _ _ _ hpos
  dsimp only
  rintro ⟨h1, h2, h3, h4⟩
  rw [h1, h2, h3, h4] at hpos
  rw [hsc] at hpos
  exact lt_irrefl 0 hpos

/-- C9: an item whose type is absent from the `typeToSection` taxonomy is
excluded from all four section partitions and never appears in any slot of any
candidate returned by `generateScoredOutfits`; the function is total, so no
error is raised. -/
theorem unknown_type_excluded (items : List ClothingItem) (ctx : ScoringContext)
    (count : ℕ) (picks : ℕ → Pick) (x : ClothingItem)
    (hx : typeToSection x.type = none) :
    (x ∉ sectionTops items ∧ x ∉ sectionOuterwear items ∧ x ∉ sectionBottoms items ∧
      x ∉ sectionShoes items) ∧
    ∀ c ∈ generateScoredOutfits items ctx count picks,
      c.top ≠ x ∧ c.outerwear ≠ some x ∧ c.bottom ≠ x ∧ c.shoes ≠ x := by
  have hsec : ∀ (sec : ClothingSection),
      x ∉ items.filter fun i => decide (typeToSection i.type = some sec) := by
    intro sec hmem
    have h2 := (List.mem_filter.mp hmem).2
    rw [hx] at h2
    simp at h2
  constructor
  · exact ⟨hsec _, hsec _, hsec _, hsec _⟩
  · refine generate_mem_prop items ctx count picks ?_
    intro top2 ow2 bottom2 shoes2 htop hbot hsho how _
    dsimp only
    refine ⟨?_, ?_, ?_, ?_⟩
    · intro he
      rw [he] at htop
      exact hsec ClothingSection.Tops htop
    · intro he
      have := how x he
      exact hsec ClothingSection.Outerwear this
    · intro he
      rw [he] at hbot
      exact hsec ClothingSection.Bottoms hbot
    · intro he
      rw [he] at hsho
      exact hsec ClothingSection.Shoes hsho

lemma comfort_foldl (top bottom shoes : ClothingItem) :
    ∀ (l : List OutfitWear) (a : ℚ) (n : ℕ),
      l.foldl
        (fun (acc : ℚ × ℕ) w =>
          let ids := wearIds w
          let overlap := (ids.filter fun id => [top.id, bottom.id, shoes.id].contains id).length
          if overlap > 0 then
            let rating := (w.comfort_rating.getD (w.rating.getD 5)) / 10
            (acc.1 + rating * ((overlap : ℚ) / (ids.length : ℚ)), acc.2 + 1)
          else acc)
        (a, n) =
      (a + ((l.filter fun w => decide (wearOverlap top bottom shoes w > 0)).map fun w =>
          wearRating w * ((wearOverlap top bottom shoes w : ℚ) / (wearSlotCount w : ℚ))).sum,
       n + (l.filter fun w => decide (wearOverlap top bottom shoes w > 0)).length) := by
  intro l
  induction l with
  | nil => intro a n; simp
  | cons w rest ih =>
    intro a n
    by_cases h : wearOverlap top bottom shoes w > 0
    · have hov : ((wearIds w).filter fun id =>
          [top.id, bottom.id, shoes.id].contains id).length > 0 := h
      simp only [List.foldl_cons, List.filter_cons, h, decide_True, if_true, if_pos hov,
        List.map_cons, List.sum_cons, List.length_cons]
      rw [ih]
      simp only [Prod.mk.injEq]
      constructor
      · unfold wearRating wearOverlap wearSlotCount
        ring
      · omega
    · have hov : ¬ ((wearIds w).filter fun id =>
          [top.id, bottom.id, shoes.id].contains id).length > 0 := h
      simp only [List.foldl_cons, List.filter_cons, h, decide_False, Bool.false_eq_true,
        if_false, if_neg hov]
      exact ih a n


/-- C2 (amended): the comfort scorer equals the spec formula with the
denominator corrected: each overlapping wear is weighted by
overlap / (number of present non-empty ids among the wear's top, bottom and
shoes slots), not by overlap / 3; the score is the weighted sum over matches
divided by the match count, 0.5 when there is no match (in particular for an
empty rated list). -/
theorem comfortScore_eq_amended (top bottom shoes : ClothingItem)
    (rated : List OutfitWear) :
    comfortScore top bottom shoes rated = comfortScoreAmended top bottom shoes rated := by
  unfold comfortScore comfortScoreAmended
  by_cases hnil : rated = []
  · subst hnil
    simp
  · rw [if_neg hnil]
    simp only [comfort_foldl top bottom shoes rated 0 0, Nat.zero_add, zero_add]
    by_cases hm : (rated.filter fun w => decide (wearOverlap top bottom shoes w > 0)) = []
    · simp [hm]
    · have hlen : 0 < (rated.filter fun w =>
          decide (wearOverlap top bottom shoes w > 0)).length := List.length_pos.mpr hm
      simp [hm, hlen]

/-- C3 (amended): the occasion scorer equals the spec formula with the
denominator corrected: the top check is always evaluated (counted in the
denominator) — the section-is-Tops condition gates only whether the check can
pass — together with the bottom check and, when outerwear is present, the
outerwear check. -/
theorem occasionScore_eq_amended (top bottom : ClothingItem) (ow : Option ClothingItem)
    (occ : Option Occasion) :
    occasionScore top bottom ow occ = occasionScoreAmended top bottom ow occ := by
  rcases occ with _ | occ
  · rfl
  · rcases ow with _ | o
    · simp only [occasionScore, occasionScoreAmended]
      by_cases h1 : typeToSection top.type = some ClothingSection.Tops ∧
          top.type ∈ (occasionRules occ).tops <;>
        by_cases h2 : bottom.type ∈ (occasionRules occ).bottoms <;>
        simp [h1, h2]
    · simp only [occasionScore, occasionScoreAmended]
      by_cases h1 : typeToSection top.type = some ClothingSection.Tops ∧
          top.type ∈ (occasionRules occ).tops <;>
        by_cases h2 : bottom.type ∈ (occasionRules occ).bottoms <;>
        by_cases h3 : o.type ∈ (occasionRules occ).outerwear <;>
        simp [h1, h2, h3] <;> norm_num

/-- C7: if the tops, bottoms, or shoes partition of the items is empty,
`generateScoredOutfits` returns the empty list (no exception — the function is
total); an empty outerwear partition does not trigger this, as shown by a
concrete wardrobe with no outerwear whose output is nonempty. -/
theorem generate_empty_partition :
    (∀ items ctx count picks,
      (sectionTops items = [] ∨ sectionBottoms items = [] ∨ sectionShoes items = []) →
      generateScoredOutfits items ctx count picks = []) ∧
    generateScoredOutfits [exTee, exJeans, exShoes] emptyCtx 5 constPicks ≠ [] := by
  constructor
  · intro items ctx count picks h
    simp only [generateScoredOutfits]
    rw [if_pos]
    rcases h with h | h | h
    · exact Or.inl (by rw [h]; rfl)
    · exact Or.inr (Or.inl (by rw [h]; rfl))
    · exact Or.inr (Or.inr (by rw [h]; rfl))
  · have hsc : scoreOutfit exTee none exJeans exShoes emptyCtx = 1/2 := by
      norm_num [scoreOutfit, emptyCtx, colorHarmonyScore, weatherScore, varietyScore,
        occasionScore, comfortScore, WEIGHT]
    have hpickT : pickFrom [exTee] 0 = exTee := rfl
    have hpickB : pickFrom [exJeans] 0 = exJeans := rfl
    have hpickS : pickFrom [exShoes] 0 = exShoes := rfl
    have hdraw : drawOuterwear [] emptyCtx
        { topR := 0, bottomR := 0, shoesR := 0, owCoin := false, owR := 0 } = none := rfl
    have hkey : outfitKey exTee none exJeans exShoes = "t1-none-b1-s1" := rfl
    have hstep : genStep [exTee] [exJeans] [exShoes] [] emptyCtx (constPicks 0) [] [] =
        (["t1-none-b1-s1"], [⟨exTee, none, exJeans, exShoes, 1/2⟩]) := by
      simp only [genStep, constPicks, hpickT, hpickB, hpickS, hdraw, hkey]
      rw [if_neg (List.not_mem_nil _)]
      rw [hsc]
      rw [if_pos (by norm_num : (1/2 : ℚ) > 0)]
      rfl
    have hloop : genLoop [exTee] [exJeans] [exShoes] [] emptyCtx 1 constPicks 3 0 [] [] =
        [⟨exTee, none, exJeans, exShoes, 1/2⟩] := by
      show genLoop [exTee] [exJeans] [exShoes] [] emptyCtx 1 constPicks (2 + 1) 0 [] [] = _
      simp only [genLoop]
      rw [if_pos (by simp : ([] : List OutfitCandidate).length < 1)]
      rw [hstep]
      show genLoop [exTee] [exJeans] [exShoes] [] emptyCtx 1 constPicks (1 + 1) 1 _ _ = _
      simp only [genLoop]
      rw [if_neg (by simp)]
    have hT : sectionTops [exTee, exJeans, exShoes] = [exTee] := rfl
    have hO : sectionOuterwear [exTee, exJeans, exShoes] = [] := rfl
    have hB : sectionBottoms [exTee, exJeans, exShoes] = [exJeans] := rfl
    have hS : sectionShoes [exTee, exJeans, exShoes] = [exShoes] := rfl
    have hgen : generateScoredOutfits [exTee, exJeans, exShoes] emptyCtx 5 constPicks =
        [⟨exTee, none, exJeans, exShoes, 1/2⟩] := by
      simp only [generateScoredOutfits, hT, hO, hB, hS]
      rw [if_neg (by simp)]
      have hmin : min (([exTee].length * [exJeans].length * [exShoes].length *
          (([] : List ClothingItem).length + 1))) 500 = 1 := by simp
      rw [hmin]
      rw [hloop]
      simp [sortByScoreDesc]
    rw [hgen]
    simp


/-- Counterexample to C1 as stated: a candidate whose shoes-slot item has a
type blocked in cold weather (a Tank Top recorded in the shoes slot) still
receives a nonzero weather score and a nonzero aggregate score, because the
weather scorer inspects only top, bottom and outerwear. -/
theorem blocked_shoes_counterexample :
    blockedInCategory exShoesTank.type TemperatureCategory.cold ∧
    coldCtx.weather = some TemperatureCategory.cold ∧
    weatherScore exLss exJeans none (some TemperatureCategory.cold) ≠ 0 ∧
    scoreOutfit exLss none exJeans exShoesTank coldCtx ≠ 0 := by
  have hws : weatherScore exLss exJeans none (some TemperatureCategory.cold) = 1/5 := by
    simp +decide [weatherScore, weatherItemsLoop, isClothingAppropriateForWeather,
      isClothingSuggestedForWeather, isOuterwearRequired, isOuterwearSuggested,
      clothingWeatherRules, exLss, exJeans]
    norm_num
  have hso : scoreOutfit exLss none exJeans exShoesTank coldCtx = 17/40 := by
    have hcolor : colorHarmonyScore exLss exJeans none [] = 0.5 := rfl
    have hvar : varietyScore exLss exJeans exShoesTank none [] = 0.5 := rfl
    have hocc : occasionScore exLss exJeans none none = 0.5 := rfl
    have hcom : comfortScore exLss exJeans exShoesTank [] = 0.5 := rfl
    simp only [scoreOutfit, coldCtx, hcolor, hvar, hocc, hcom, hws]
    norm_num [WEIGHT]
  refine ⟨by decide, rfl, ?_, ?_⟩
  · rw [hws]
    norm_num
  · rw [hso]
    norm_num

/-- Witness for C1 at a concrete blocked outfit (T-Shirt in cold weather). -/
theorem blocked_candidate_rejected_witness :
    weatherScore exTee exJeans none (some TemperatureCategory.cold) = 0 ∧
    scoreOutfit exTee none exJeans exShoes coldCtx = 0 := by
  have h := blocked_candidate_rejected [] coldCtx 5 constPicks exTee exJeans exShoes none
    TemperatureCategory.cold rfl ⟨exTee, by simp, by decide⟩
  exact ⟨h.1, h.2.1⟩

/-- Counterexample to C2 as stated: for a rated wear that records only a top
(two slots missing), the code weights by overlap/1 and returns 1/2, while the
claim's always-divide-by-3 formula would return 1/6. -/
theorem comfort_counterexample :
    comfortScore exTee exJeans exShoes [exWearTopOnly] = 1/2 ∧
    comfortScoreClaimed exTee exJeans exShoes [exWearTopOnly] = 1/6 ∧
    comfortScore exTee exJeans exShoes [exWearTopOnly] ≠
      comfortScoreClaimed exTee exJeans exShoes [exWearTopOnly] := by
  have h1 : comfortScore exTee exJeans exShoes [exWearTopOnly] = 1/2 := by
    simp +decide [comfortScore, wearIds, exTee, exJeans, exShoes, exWearTopOnly,
      List.foldl, List.filterMap, List.filter, List.contains]
    norm_num
  have h2 : comfortScoreClaimed exTee exJeans exShoes [exWearTopOnly] = 1/6 := by
    simp +decide [comfortScoreClaimed, wearIds, exTee, exJeans, exShoes, exWearTopOnly,
      List.foldl, List.filterMap, List.filter, List.contains]
    norm_num
  refine ⟨h1, h2, ?_⟩
  rw [h1, h2]
  norm_num

/-- Counterexample to C3 as stated: for a top whose section is Outerwear
(a Jacket passed in the top slot), the code still counts the top check in the
denominator and returns 1/2, while the claim's only-count-if-Tops reading
would return 1. -/
theorem occasion_counterexample :
    occasionScore exJacket exJeans none (some Occasion.Casual) = 1/2 ∧
    occasionScoreClaimed exJacket exJeans none (some Occasion.Casual) = 1 ∧
    occasionScore exJacket exJeans none (some Occasion.Casual) ≠
      occasionScoreClaimed exJacket exJeans none (some Occasion.Casual) := by
  have h1 : occasionScore exJacket exJeans none (some Occasion.Casual) = 1/2 := by
    simp +decide [occasionScore, exJacket, exJeans, occasionRules, typeToSection]
  have h2 : occasionScoreClaimed exJacket exJeans none (some Occasion.Casual) = 1 := by
    simp +decide [occasionScoreClaimed, exJacket, exJeans, occasionRules, typeToSection]
  refine ⟨h1, h2, ?_⟩
  rw [h1, h2]
  norm_num

/-- Witness for C10 at a concrete non-blocked outfit in cold weather. -/
theorem weatherScore_zero_iff_blocked_witness :
    (0.2 : ℚ) ≤ weatherScore exLss exJeans none (some TemperatureCategory.cold) :=
  (weatherScore_zero_iff_blocked exLss exJeans none TemperatureCategory.cold).2
    (by decide)

/-- Witness for C6 with concrete arguments, discharging the oracle-agreement
hypothesis. -/
theorem generate_length_bounds_witness :
    (generateScoredOutfits [] emptyCtx 5 constPicks).length ≤ 5 ∧
    generateScoredOutfits [] emptyCtx 5 constPicks =
      generateScoredOutfits [] emptyCtx 5 altPicks := by
  have h := generate_length_bounds [] emptyCtx 5 constPicks altPicks
  refine ⟨h.1, h.2.2 fun j hj => ?_⟩
  exfalso
  simp [combosCap, sectionTops, sectionBottoms, sectionShoes, sectionOuterwear] at hj

/-- Witness for C7: an empty wardrobe makes every partition empty and the
generator returns the empty list. -/
theorem generate_empty_partition_witness :
    generateScoredOutfits [] emptyCtx 5 constPicks = [] :=
  generate_empty_partition.1 [] emptyCtx 5 constPicks (Or.inl rfl)

/-- Witness for C9 at a concrete unknown-type item. -/
theorem unknown_type_excluded_witness :
    exUnknown ∉ sectionTops [exTee] ∧ exUnknown ∉ sectionOuterwear [exTee] ∧
    exUnknown ∉ sectionBottoms [exTee] ∧ exUnknown ∉ sectionShoes [exTee] :=
  (unknown_type_excluded [exTee] emptyCtx 5 constPicks exUnknown rfl).1

end FitFinder
